import Mathlib

/-! Shallow embedding of `siwe/siwe.py` (Sign-In with Ethereum, EIP-4361).

Conventions of the embedding:
* Python `Optional` values become `Option`; Python integers are unbounded and
  become `Int`.
* The external collaborators of the module (the EIP-55 checksum test from
  `eth_utils`, RFC 3987 URI syntax from `rfc3987`, ISO-8601 parsing from
  `dateutil`, ECDSA signature recovery from `web3`, and the randomness behind
  `secrets.choice`) are injected as explicit parameters, so theorems quantify
  over their behaviour unless a concrete instance is supplied.
* Abstract time instants are `Int` (only their linear order is used by the
  source, via `datetime` comparisons).
* Raised Python exceptions become `Except.error` values.
-/

namespace Siwe

/-- Python f-strings render `None` as the text `None`; `pyStr` is used wherever
the source interpolates an optional field without a presence test
(for example `f"URI: {self.uri}"`). -/
def pyStr : Option String → String
  | some s => s
  | none => "None"

/-- Embedding of Python `"\n".join(lines)`. -/
def joinLines : List String → String
  | [] => ""
  | [a] => a
  | a :: b :: rest => a ++ "\n" ++ joinLines (b :: rest)

/-- The external capabilities used by `siwe.py`:
`eth_utils.is_checksum_formatted_address`, `rfc3987.parse(·, rule="URI")`
(as a Boolean success test), `dateutil.parser.isoparse` (abstract instants are
`Int`; `none` models a raised parse error), Python `int(text)` coercion, and
`w3.eth.account.recover_message` applied to the EIP-191 encoding of the
canonical text (`none` models a recovery exception). -/
structure Externals where
  is_checksum_formatted_address : String → Bool
  rfc3987_uri : String → Bool
  isoparse : String → Option Int
  parseInt : String → Option Int
  recover : String → String → Option String

/-- Construction-time failures of `SiweMessage.__init__`: Python `ValueError`
with its message text, the `int(value)` coercion raising on a non-numeric
chain-id text, and `isoparse(value)` raising on a malformed datetime text of
the named field. -/
inductive ConstructError where
  | valueError (msg : String)
  | intCoercion
  | isoparseFailure (field : String)
deriving DecidableEq

/-- The `VerificationError` hierarchy raised by `SiweMessage.verify`.
`isoparseFailure` models the `dateutil` exception escaping from
`get_expiration_time`/`get_not_before` on a model whose stored datetime text
does not parse (such a model cannot come out of `__init__`, which validates
those fields). -/
inductive VerificationError where
  | malformedSession (missing_fields : List String)
  | domainMismatch
  | nonceMismatch
  | expiredMessage
  | notYetValidMessage
  | invalidSignature
  | isoparseFailure
deriving DecidableEq

/-- The `SiweMessage` instance: one slot per entry of `__slots__`, in order.
`_require_address` is embedded as `require_address`. -/
structure SiweMessage where
  domain : Option String
  address : Option String
  statement : Option String
  uri : Option String
  chain_id : Option Int
  version : Option String
  nonce : Option String
  issued_at : Option String
  expiration_time : Option String
  not_before : Option String
  request_id : Option String
  resources : Option (List String)
  require_address : Bool
deriving DecidableEq

/-- A `chain_id` entry of the constructor's input mapping: either already an
`int` or a text to be coerced with `int(value)`. -/
inductive ChainIdValue where
  | int (i : Int)
  | str (s : String)
deriving DecidableEq

/-- The structured field mapping accepted by `SiweMessage.__init__` (the
`dict` branch; the `str` branch first runs one of the two parsers, which live
in the separate `siwe/parsed.py` module). A missing key is `none`
(`message_dict.get(key)` returns `None`). -/
structure MessageDict where
  domain : Option String := none
  address : Option String := none
  statement : Option String := none
  uri : Option String := none
  chain_id : Option ChainIdValue := none
  version : Option String := none
  nonce : Option String := none
  issued_at : Option String := none
  expiration_time : Option String := none
  not_before : Option String := none
  request_id : Option String := none
  resources : Option (List String) := none
deriving DecidableEq

/-- The `domain` branch of the constructor's per-key chain:
`value == ""` raises; an absent (`None`) domain passes. -/
def checkDomain (domain : Option String) : Except ConstructError Unit :=
  if domain = some "" then .error (.valueError "Message `domain` must not be empty")
  else .ok ()

/-- The `address` branch: a present address must satisfy
`eth_utils.is_checksum_formatted_address`. -/
def checkAddress (ext : Externals) : Option String → Except ConstructError Unit
  | none => .ok ()
  | some a =>
      if ext.is_checksum_formatted_address a then .ok ()
      else .error (.valueError "Message `address` must be in EIP-55 format")

/-- The `uri` branch: a present uri must satisfy `rfc3987.parse(value, rule="URI")`. -/
def checkUri (ext : Externals) : Option String → Except ConstructError Unit
  | none => .ok ()
  | some u =>
      if ext.rfc3987_uri u then .ok ()
      else .error (.valueError "Invalid format for field `uri`")

/-- The `chain_id` branch: a present non-`int` value is coerced with
`int(value)`, which raises on non-numeric text. -/
def coerceChainId (ext : Externals) : Option ChainIdValue → Except ConstructError (Option Int)
  | none => .ok none
  | some (.int i) => .ok (some i)
  | some (.str s) =>
      match ext.parseInt s with
      | some i => .ok (some i)
      | none => .error .intCoercion

/-- The `issued_at`/`expiration_time`/`not_before` branches: a present value
is fed to `isoparse`, whose exception propagates. -/
def checkIso (ext : Externals) (field : String) : Option String → Except ConstructError Unit
  | none => .ok ()
  | some s => if (ext.isoparse s).isSome then .ok () else .error (.isoparseFailure field)

/-- The `resources` branch: every entry of a present list must satisfy
`rfc3987.parse(url, rule="URI")`. -/
def checkResources (ext : Externals) : Option (List String) → Except ConstructError Unit
  | none => .ok ()
  | some rs =>
      if rs.all ext.rfc3987_uri then .ok ()
      else .error (.valueError "Invalid format for field `resources`")

/-- `SiweMessage.__init__` on a structured field mapping. The source iterates
over `__slots__` in order (`domain`, `address`, `statement`, `uri`,
`chain_id`, `version`, `nonce`, `issued_at`, `expiration_time`, `not_before`,
`request_id`, `resources`) and runs the single matching validation branch per
key; `statement`, `version`, `nonce` and `request_id` have no validation
branch and are stored unchanged.  The first raised error aborts construction
(no instance is produced). -/
def siweInit (ext : Externals) (message : MessageDict) (require_address : Bool) :
    Except ConstructError SiweMessage := do
  checkDomain message.domain
  checkAddress ext message.address
  checkUri ext message.uri
  let chainId ← coerceChainId ext message.chain_id
  checkIso ext "issued_at" message.issued_at
  checkIso ext "expiration_time" message.expiration_time
  checkIso ext "not_before" message.not_before
  checkResources ext message.resources
  pure { domain := message.domain, address := message.address,
         statement := message.statement, uri := message.uri,
         chain_id := chainId, version := message.version,
         nonce := message.nonce, issued_at := message.issued_at,
         expiration_time := message.expiration_time,
         not_before := message.not_before,
         request_id := message.request_id, resources := message.resources,
         require_address := require_address }

/-- The `chain_field` local of `prepare_message`:
`f"Chain ID: {self.chain_id or 1}"`.  Python `or` substitutes `1` both for
`None` and for the falsy integer `0`. -/
def chain_field (m : SiweMessage) : String :=
  "Chain ID: " ++ (match m.chain_id with
    | none => "1"
    | some c => if c = 0 then "1" else toString c)

/-- One conditionally appended `Label: value` line of `prepare_message`.
The source guards with Python truthiness (`if self.expiration_time:` etc.), so
both `None` and the empty string suppress the line. -/
def optField (label : String) : Option String → List String
  | none => []
  | some s => if s = "" then [] else [label ++ s]

/-- The lines of the `Resources` block: a `Resources:` header followed by one
`- {resource}` line per entry. -/
def resourceLines (rs : List String) : List String :=
  "Resources:" :: rs.map (fun r => "- " ++ r)

/-- `SiweMessage.prepare_message`.  The two effects the source performs on
`self` — defaulting a `None` nonce to `generate_nonce()` and a `None`
`issued_at` to the current local time — are made explicit: `freshNonce` and
`nowIso` are the values those two calls would produce, and the updated
instance is returned alongside the text.  Truthiness guards
(`if self.statement:`, `if self.expiration_time:`, …) are as in the source;
`self.address or ""` renders an absent address as an empty line. -/
def prepare_message (m : SiweMessage) (freshNonce nowIso : String) :
    SiweMessage × String :=
  let hdr := pyStr m.domain ++ " wants you to sign in with your Ethereum account:"
  let uriF := "URI: " ++ pyStr m.uri
  let pfx := joinLines [hdr, m.address.getD ""]
  let versionF := "Version: " ++ pyStr m.version
  let nonceVal := m.nonce.getD freshNonce
  let issuedVal := m.issued_at.getD nowIso
  let suffix_array :=
    [uriF, versionF, chain_field m, "Nonce: " ++ nonceVal,
     "Issued At: " ++ issuedVal]
    ++ optField "Expiration Time: " m.expiration_time
    ++ optField "Not Before: " m.not_before
    ++ optField "Request ID: " m.request_id
    ++ (match m.resources with
        | none => []
        | some rs => if rs = [] then [] else [joinLines (resourceLines rs)])
  let sfx := joinLines suffix_array
  let pfx2 := match m.statement with
    | none => pfx ++ "\n"
    | some s => if s = "" then pfx ++ "\n" else pfx ++ "\n\n" ++ s
  ({ m with nonce := some nonceVal, issued_at := some issuedVal },
   pfx2 ++ "\n\n" ++ sfx)

/-- The canonical wire layout stated by the specification, as a flat list of
lines: header line, address line, the blank-line-separated statement block
(an omitted/empty statement contributes the single blank line and no second
line; a statement contributes a blank line and the statement line), exactly
one blank line separating the two main blocks, then the final block's lines
in fixed order — URI, Version, Chain ID, Nonce, Issued At — followed by the
conditional Expiration Time / Not Before / Request ID lines and the
Resources block, each only when the field is present (Python truthiness, as
in the source's guards). -/
def canonicalLayoutLines (m : SiweMessage) (freshNonce nowIso : String) :
    List String :=
  [pyStr m.domain ++ " wants you to sign in with your Ethereum account:",
   m.address.getD ""]
  ++ (match m.statement with
      | none => [""]
      | some s => if s = "" then [""] else ["", s])
  ++ [""]
  ++ ["URI: " ++ pyStr m.uri, "Version: " ++ pyStr m.version, chain_field m,
      "Nonce: " ++ m.nonce.getD freshNonce,
      "Issued At: " ++ m.issued_at.getD nowIso]
  ++ optField "Expiration Time: " m.expiration_time
  ++ optField "Not Before: " m.not_before
  ++ optField "Request ID: " m.request_id
  ++ (match m.resources with
      | none => []
      | some rs => if rs = [] then [] else resourceLines rs)

/-- A contextual check of `verify`: Python `domain is not None and
self.domain != domain` (and the same shape for the nonce). -/
def mismatches (expected actual : Option String) : Bool :=
  match expected with
  | none => false
  | some v => decide (actual ≠ some v)

/-- `SiweMessage.get_expiration_time`: parse the stored text when present;
the `dateutil` exception propagates. -/
def get_expiration_time (ext : Externals) (m : SiweMessage) :
    Except VerificationError (Option Int) :=
  match m.expiration_time with
  | none => .ok none
  | some s =>
      match ext.isoparse s with
      | some e => .ok (some e)
      | none => .error .isoparseFailure

/-- `SiweMessage.get_not_before`. -/
def get_not_before (ext : Externals) (m : SiweMessage) :
    Except VerificationError (Option Int) :=
  match m.not_before with
  | none => .ok none
  | some s =>
      match ext.isoparse s with
      | some e => .ok (some e)
      | none => .error .isoparseFailure

/-- `verification_time >= expiration_time` when an expiration time is set. -/
def atOrAfter (t : Int) : Option Int → Bool
  | none => false
  | some e => decide (e ≤ t)

/-- `verification_time <= not_before` when a not-before time is set. -/
def atOrBefore (t : Int) : Option Int → Bool
  | none => false
  | some nb => decide (t ≤ nb)

/-- The final comparison of `verify`: `if self.address and address !=
self.address: raise InvalidSignature` (Python truthiness: a `None` or empty
stored address skips the comparison), otherwise the recovered address is
returned. -/
def checkAddressMatch (addressField : Option String) (recovered : String) :
    Except VerificationError String :=
  match addressField with
  | none => .ok recovered
  | some ad =>
      if ad ≠ "" ∧ recovered ≠ ad then .error .invalidSignature
      else .ok recovered

/-- The final stage of `verify`: `recover_message` inside `try/except`
(any recovery exception becomes `InvalidSignature`) followed by the stored
address comparison. -/
def signatureStage (ext : Externals) (text signature : String)
    (addressField : Option String) : Except VerificationError String :=
  match ext.recover text signature with
  | none => .error .invalidSignature
  | some address => checkAddressMatch addressField address

/-- The ordered check sequence of `verify`, applied to the already-serialized
instance `m` and its canonical text.  `encode_defunct` never returns `None`,
so the source's `if message is None` clause of the missing-fields check can
never fire and the only possible missing field is `address`. -/
def verifyResult (ext : Externals) (signature : String)
    (domain? nonce? : Option String) (t : Int) (m : SiweMessage)
    (text : String) : Except VerificationError String :=
  if m.require_address = true ∧ m.address = none then
    .error (.malformedSession ["address"])
  else if mismatches domain? m.domain then .error .domainMismatch
  else if mismatches nonce? m.nonce then .error .nonceMismatch
  else
    match get_expiration_time ext m with
    | .error e => .error e
    | .ok expOpt =>
      if atOrAfter t expOpt then .error .expiredMessage
      else
        match get_not_before ext m with
        | .error e => .error e
        | .ok nbOpt =>
          if atOrBefore t nbOpt then .error .notYetValidMessage
          else signatureStage ext text signature m.address

/-- `SiweMessage.verify`.  The very first statement of the source is
`message = encode_defunct(text=self.prepare_message())`, so the one-time
defaulting of `nonce`/`issued_at` happens before any check runs; the method
returns the (possibly updated) instance together with the outcome.
`timestamp?` is the caller-supplied instant and `nowUtc` the value
`datetime.now(UTC)` would produce; `freshNonce`/`nowIso` are the values the
deferred defaulting would generate. -/
def verify (m : SiweMessage) (signature : String)
    (domain? nonce? : Option String) (timestamp? : Option Int)
    (ext : Externals) (freshNonce nowIso : String) (nowUtc : Int) :
    SiweMessage × Except VerificationError String :=
  let pm := prepare_message m freshNonce nowIso
  (pm.1,
   verifyResult ext signature domain? nonce? (timestamp?.getD nowUtc) pm.1 pm.2)

set_option linter.unusedVariables false in
/-- `check_contract_wallet_signature`: unconditionally raises
`NotImplementedError` with this message, ignoring its argument. -/
def check_contract_wallet_signature (message : SiweMessage) :
    Except String Bool :=
  .error "siwe does not yet support EIP-1271 method signature verification."

/-- `alphanumerics = string.ascii_letters + string.digits`. -/
def alphanumerics : List Char :=
  "abcdefghijklmnopqrstuvwxyzABCDEFGHIJKLMNOPQRSTUVWXYZ0123456789".data

/-- `generate_nonce`: eleven draws of `secrets.choice(alphanumerics)`.  The
randomness source is injected as `choice`; draw `i` picks the element of
`alphanumerics` at index `choice i % 62`, so every element the source can
return is reachable and nothing else is. -/
def generate_nonce (choice : Nat → Nat) : String :=
  String.mk ((List.range 11).map (fun i =>
    alphanumerics.get ⟨choice i % alphanumerics.length, Nat.mod_lt _ (by decide)⟩))

/-! Helper lemmas about `joinLines`. -/

theorem joinLines_cons (a : String) (l : List String) (h : l ≠ []) :
    joinLines (a :: l) = a ++ "\n" ++ joinLines l := by
  cases l with
  | nil => exact absurd rfl h
  | cons b t => rfl

theorem joinLines_append :
    ∀ (l₁ : List String), l₁ ≠ [] → ∀ (l₂ : List String), l₂ ≠ [] →
      joinLines (l₁ ++ l₂) = joinLines l₁ ++ "\n" ++ joinLines l₂
  | [], h, _, _ => absurd rfl h
  | [a], _, l₂, h₂ => by
      rw [List.singleton_append, joinLines_cons a l₂ h₂]; rfl
  | a :: b :: t, _, l₂, h₂ => by
      have ih := joinLines_append (b :: t) (by simp) l₂ h₂
      rw [List.cons_append, joinLines_cons a ((b :: t) ++ l₂) (by simp), ih,
          joinLines_cons a (b :: t) (by simp)]
      simp only [String.append_assoc]

set_option maxHeartbeats 1000000 in
/-- The serializer produces exactly the canonical line layout: proved once
here and used by the layout theorems below. -/
theorem prepare_message_eq_layout (m : SiweMessage) (freshNonce nowIso : String) :
    (prepare_message m freshNonce nowIso).2 =
      joinLines (canonicalLayoutLines m freshNonce nowIso) := by
  obtain ⟨dom, addr, stmt, uri, cid, ver, non, iss, exp, nb, rid, res, ra⟩ := m
  have h2 : ("\n\n" : String) = "\n" ++ "\n" := rfl
  cases stmt <;> cases exp <;> cases nb <;> cases rid <;> cases res <;>
    simp only [prepare_message, canonicalLayoutLines, optField, resourceLines] <;>
    (try split_ifs) <;>
    simp only [joinLines, List.cons_append, List.nil_append, List.append_nil,
      List.singleton_append, h2, String.append_assoc, String.empty_append,
      String.append_empty]

/-- The instance returned by `prepare_message`: the two deferred fields are
filled (kept when already set) and every other slot is untouched. -/
theorem prepare_message_model (m : SiweMessage) (freshNonce nowIso : String) :
    (prepare_message m freshNonce nowIso).1 =
      { m with nonce := some (m.nonce.getD freshNonce),
               issued_at := some (m.issued_at.getD nowIso) } := rfl

/-- C1: For every MessageModel, the canonical text produced by serialization
(`prepare_message`) has the fixed layout: the header line
`{domain} wants you to sign in with your Ethereum account:`, the address
line, a blank-line-separated statement block where an omitted statement
yields a single blank line and no second line, then the URI, Version,
Chain ID, Nonce and Issued At lines in that order, then Expiration Time,
Not Before, Request ID and a Resources block (one `- {uri}` line per entry)
each appended only if the respective field is present, with exactly one
blank line between the two main blocks and single line breaks between fields
of the final block.  (`canonicalLayoutLines` is that layout as a line list,
joined with single line breaks; presence of an optional field is Python
truthiness, exactly as the source's guards test it.) -/
theorem C1_prepare_message_canonical_layout (m : SiweMessage)
    (freshNonce nowIso : String) :
    (prepare_message m freshNonce nowIso).2 =
      joinLines (canonicalLayoutLines m freshNonce nowIso) :=
  prepare_message_eq_layout m freshNonce nowIso

/-- C7: Deferred defaulting of `nonce` and `issued_at` is idempotent and
single-assignment: a second serialization (whatever values the generators
would produce on that second call) changes nothing — it returns the same
instance and text identical to the first call's output — a field already set
is never overwritten (serialization keeps its value), and a missing field is
assigned exactly the generated value on first use. -/
theorem C7_defaulting_idempotent_single_assignment :
    (∀ (m : SiweMessage) (f₁ n₁ f₂ n₂ : String),
        prepare_message (prepare_message m f₁ n₁).1 f₂ n₂ =
          prepare_message m f₁ n₁) ∧
    (∀ (m : SiweMessage) (f n v : String), m.nonce = some v →
        (prepare_message m f n).1.nonce = some v) ∧
    (∀ (m : SiweMessage) (f n : String), m.nonce = none →
        (prepare_message m f n).1.nonce = some f) ∧
    (∀ (m : SiweMessage) (f n v : String), m.issued_at = some v →
        (prepare_message m f n).1.issued_at = some v) ∧
    (∀ (m : SiweMessage) (f n : String), m.issued_at = none →
        (prepare_message m f n).1.issued_at = some n) := by
  refine ⟨?_, ?_, ?_, ?_, ?_⟩
  · intro m f₁ n₁ f₂ n₂
    obtain ⟨dom, addr, stmt, uri, cid, ver, non, iss, exp, nb, rid, res, ra⟩ := m
    cases non <;> cases iss <;> rfl
  · intro m f n v h
    obtain ⟨dom, addr, stmt, uri, cid, ver, non, iss, exp, nb, rid, res, ra⟩ := m
    cases h; rfl
  · intro m f n h
    obtain ⟨dom, addr, stmt, uri, cid, ver, non, iss, exp, nb, rid, res, ra⟩ := m
    cases h; rfl
  · intro m f n v h
    obtain ⟨dom, addr, stmt, uri, cid, ver, non, iss, exp, nb, rid, res, ra⟩ := m
    cases h; rfl
  · intro m f n h
    obtain ⟨dom, addr, stmt, uri, cid, ver, non, iss, exp, nb, rid, res, ra⟩ := m
    cases h; rfl

/-- A model constructed with both deferred fields (`nonce`, `issued_at`)
unset. -/
def unsetDefaultsModel : SiweMessage :=
  { domain := some "service.org", address := some "0xAb", statement := none,
    uri := some "https://service.org/login", chain_id := some 1,
    version := some "1", nonce := none, issued_at := none,
    expiration_time := none, not_before := none, request_id := none,
    resources := none, require_address := true }

/-- Witness for C7 at a concrete instance with both deferred fields unset:
the first serialization fills them, the second reproduces the first, and an
already-set nonce survives serialization unchanged. -/
theorem C7_defaulting_witness :
    prepare_message
        (prepare_message unsetDefaultsModel "freshNonce1" "2021-01-01T00:00:00Z").1
        "freshNonce2" "2022-02-02T00:00:00Z" =
      prepare_message unsetDefaultsModel "freshNonce1" "2021-01-01T00:00:00Z" ∧
    (prepare_message { unsetDefaultsModel with nonce := some "keptNonce" }
        "freshNonce1" "T").1.nonce = some "keptNonce" :=
  ⟨C7_defaulting_idempotent_single_assignment.1 _ _ _ _ _,
   C7_defaulting_idempotent_single_assignment.2.1 _ _ _ _ rfl⟩

/-- The model whose `chain_id` is the falsy integer `0`: the serializer's
`self.chain_id or 1` renders `1`, not the stored value. -/
def chainZeroModel : SiweMessage :=
  { domain := some "service.org", address := some "0xAb", statement := none,
    uri := some "https://service.org/login", chain_id := some 0,
    version := some "1", nonce := some "32891757",
    issued_at := some "2021-09-30T16:25:24Z", expiration_time := none,
    not_before := none, request_id := none, resources := none,
    require_address := true }

/-- C8 counterexample: the claim says a model whose `chain_id` is set has its
stored value rendered; but for the stored (set) value `0`, Python's
`self.chain_id or 1` treats `0` as falsy and the serialized text carries
`Chain ID: 1`, not `Chain ID: 0`. -/
theorem C8_chain_id_counterexample :
    chainZeroModel.chain_id = some 0 ∧
    chain_field chainZeroModel = "Chain ID: 1" ∧
    "Chain ID: " ++ toString (0 : Int) = "Chain ID: 0" ∧
    ("Chain ID: 1" : String) ≠ "Chain ID: 0" ∧
    (prepare_message chainZeroModel "N" "T").2 =
      "service.org wants you to sign in with your Ethereum account:\n0xAb\n\n\nURI: https://service.org/login\nVersion: 1\nChain ID: 1\nNonce: 32891757\nIssued At: 2021-09-30T16:25:24Z" :=
  ⟨rfl, rfl, rfl, by decide, rfl⟩

/-- C8 (amended): serialization never mutates the stored `chain_id`; the
`Chain ID` line (one of the canonical layout's lines) renders `1` when the
stored value is unset or the falsy integer `0`, and renders the stored value
for every non-zero chain id. -/
theorem C8_chain_id_rendering (m : SiweMessage) (freshNonce nowIso : String) :
    ((prepare_message m freshNonce nowIso).1.chain_id = m.chain_id) ∧
    (chain_field m ∈ canonicalLayoutLines m freshNonce nowIso) ∧
    (m.chain_id = none ∨ m.chain_id = some 0 → chain_field m = "Chain ID: 1") ∧
    (∀ c : Int, m.chain_id = some c → c ≠ 0 →
        chain_field m = "Chain ID: " ++ toString c) := by
  refine ⟨?_, ?_, ?_, ?_⟩
  · obtain ⟨dom, addr, stmt, uri, cid, ver, non, iss, exp, nb, rid, res, ra⟩ := m
    rfl
  · simp [canonicalLayoutLines]
  · rintro (h | h) <;> simp [chain_field, h]
  · intro c h hc
    simp [chain_field, h, hc]

/-- Witness for C8 (amended) at concrete chain ids `5`, `0` and unset. -/
theorem C8_chain_id_witness :
    ((prepare_message { chainZeroModel with chain_id := some 5 } "N" "T").1.chain_id
        = some 5) ∧
    chain_field { chainZeroModel with chain_id := some 5 } = "Chain ID: 5" ∧
    chain_field chainZeroModel = "Chain ID: 1" ∧
    chain_field { chainZeroModel with chain_id := none } = "Chain ID: 1" := by
  refine ⟨?_, ?_, ?_, ?_⟩
  · rw [(C8_chain_id_rendering { chainZeroModel with chain_id := some 5 } "N" "T").1]
  · exact (C8_chain_id_rendering { chainZeroModel with chain_id := some 5 } "N" "T").2.2.2
      5 rfl (by decide)
  · exact (C8_chain_id_rendering chainZeroModel "N" "T").2.2.1 (Or.inr rfl)
  · exact (C8_chain_id_rendering { chainZeroModel with chain_id := none } "N" "T").2.2.1
      (Or.inl rfl)

/-- C9: Every token produced by the nonce generator is exactly 11 characters
long and every character is drawn from the alphanumeric alphabet, whatever
the injected randomness source does (the source draws with `secrets.choice`,
the cryptographically secure generator of the `secrets` module). -/
theorem C9_generate_nonce_shape (choice : Nat → Nat) :
    (generate_nonce choice).length = 11 ∧
    ∀ c : Char, c ∈ (generate_nonce choice).data → c ∈ alphanumerics := by
  constructor
  · simp [generate_nonce, String.length_mk]
  · intro c hc
    simp only [generate_nonce, String.mk, List.mem_map] at hc
    obtain ⟨i, _, hfi⟩ := hc
    exact hfi ▸ List.get_mem _ _ _

/-- Witness for C9 at the constant randomness source `fun _ => 0`. -/
theorem C9_generate_nonce_witness :
    (generate_nonce (fun _ => 0)).length = 11 ∧ 'a' ∈ alphanumerics :=
  ⟨(C9_generate_nonce_shape (fun _ => 0)).1,
   (C9_generate_nonce_shape (fun _ => 0)).2 'a' (by decide)⟩

/-! Stage lemmas for the ordered check sequence of `verify`: each one states
that when every earlier check passes and the given check fails, the outcome
is that check's error, whatever the later stages' inputs (in particular,
whatever the recovery oracle would answer). -/

theorem verifyResult_malformed (ext : Externals) (sig : String)
    (d? n? : Option String) (t : Int) (m : SiweMessage) (text : String)
    (h1 : m.require_address = true) (h2 : m.address = none) :
    verifyResult ext sig d? n? t m text = .error (.malformedSession ["address"]) := by
  simp [verifyResult, h1, h2]

theorem verifyResult_domain (ext : Externals) (sig : String)
    (d? n? : Option String) (t : Int) (m : SiweMessage) (text : String)
    (hmal : ¬(m.require_address = true ∧ m.address = none))
    (hd : mismatches d? m.domain = true) :
    verifyResult ext sig d? n? t m text = .error .domainMismatch := by
  simp [verifyResult, hmal, hd]

theorem verifyResult_nonce (ext : Externals) (sig : String)
    (d? n? : Option String) (t : Int) (m : SiweMessage) (text : String)
    (hmal : ¬(m.require_address = true ∧ m.address = none))
    (hd : mismatches d? m.domain = false)
    (hn : mismatches n? m.nonce = true) :
    verifyResult ext sig d? n? t m text = .error .nonceMismatch := by
  simp [verifyResult, hmal, hd, hn]

theorem verifyResult_expired (ext : Externals) (sig : String)
    (d? n? : Option String) (t : Int) (m : SiweMessage) (text : String)
    (expOpt : Option Int)
    (hmal : ¬(m.require_address = true ∧ m.address = none))
    (hd : mismatches d? m.domain = false)
    (hn : mismatches n? m.nonce = false)
    (hexp : get_expiration_time ext m = .ok expOpt)
    (hAt : atOrAfter t expOpt = true) :
    verifyResult ext sig d? n? t m text = .error .expiredMessage := by
  simp [verifyResult, hmal, hd, hn, hexp, hAt]

theorem verifyResult_notYetValid (ext : Externals) (sig : String)
    (d? n? : Option String) (t : Int) (m : SiweMessage) (text : String)
    (expOpt nbOpt : Option Int)
    (hmal : ¬(m.require_address = true ∧ m.address = none))
    (hd : mismatches d? m.domain = false)
    (hn : mismatches n? m.nonce = false)
    (hexp : get_expiration_time ext m = .ok expOpt)
    (hAt : atOrAfter t expOpt = false)
    (hnb : get_not_before ext m = .ok nbOpt)
    (hBef : atOrBefore t nbOpt = true) :
    verifyResult ext sig d? n? t m text = .error .notYetValidMessage := by
  simp [verifyResult, hmal, hd, hn, hexp, hAt, hnb, hBef]

theorem verifyResult_signature_stage (ext : Externals) (sig : String)
    (d? n? : Option String) (t : Int) (m : SiweMessage) (text : String)
    (expOpt nbOpt : Option Int)
    (hmal : ¬(m.require_address = true ∧ m.address = none))
    (hd : mismatches d? m.domain = false)
    (hn : mismatches n? m.nonce = false)
    (hexp : get_expiration_time ext m = .ok expOpt)
    (hAt : atOrAfter t expOpt = false)
    (hnb : get_not_before ext m = .ok nbOpt)
    (hBef : atOrBefore t nbOpt = false) :
    verifyResult ext sig d? n? t m text = signatureStage ext text sig m.address := by
  simp [verifyResult, hmal, hd, hn, hexp, hAt, hnb, hBef]

/-- `verify` unfolded: the outcome is the check sequence applied to the
serialized instance (whose only changed slots are the two deferred defaults)
and the canonical text. -/
theorem verify_snd (m : SiweMessage) (sig : String) (d? n? : Option String)
    (ts? : Option Int) (ext : Externals) (f now : String) (tU : Int) :
    (verify m sig d? n? ts? ext f now tU).2 =
      verifyResult ext sig d? n? (ts?.getD tU)
        { m with nonce := some (m.nonce.getD f),
                 issued_at := some (m.issued_at.getD now) }
        (prepare_message m f now).2 := rfl

/-- C2: `verify` performs its checks in the fixed order malformed-session,
domain mismatch, nonce mismatch, expired message, not-yet-valid, signature
recovery, address comparison, short-circuiting at the first failure.  Each
conjunct states one stage: when every earlier check passes and that stage's
check fails, the observed error is that stage's, for every behaviour of the
later stages' inputs — in particular the nonce-mismatch conjunct holds for
every `Externals`, hence for every recovery oracle, so a supplied expected
nonce differing from the model's (post-defaulting) nonce fails with nonce
mismatch before signature recovery is attempted, and after the domain
check.  The final conjunct is the success case. -/
theorem C2_verify_check_order :
    (∀ (m : SiweMessage) (sig : String) (d? n? : Option String)
        (ts? : Option Int) (ext : Externals) (f now : String) (tU : Int),
        m.require_address = true → m.address = none →
        (verify m sig d? n? ts? ext f now tU).2 =
          .error (.malformedSession ["address"])) ∧
    (∀ (m : SiweMessage) (sig d : String) (n? : Option String)
        (ts? : Option Int) (ext : Externals) (f now : String) (tU : Int),
        ¬(m.require_address = true ∧ m.address = none) →
        m.domain ≠ some d →
        (verify m sig (some d) n? ts? ext f now tU).2 = .error .domainMismatch) ∧
    (∀ (m : SiweMessage) (sig : String) (d? : Option String) (n : String)
        (ts? : Option Int) (ext : Externals) (f now : String) (tU : Int),
        ¬(m.require_address = true ∧ m.address = none) →
        mismatches d? m.domain = false →
        m.nonce.getD f ≠ n →
        (verify m sig d? (some n) ts? ext f now tU).2 = .error .nonceMismatch) ∧
    (∀ (m : SiweMessage) (sig : String) (d? n? : Option String)
        (ts? : Option Int) (ext : Externals) (f now : String) (tU : Int)
        (es : String) (e : Int),
        ¬(m.require_address = true ∧ m.address = none) →
        mismatches d? m.domain = false →
        mismatches n? (some (m.nonce.getD f)) = false →
        m.expiration_time = some es → ext.isoparse es = some e →
        e ≤ ts?.getD tU →
        (verify m sig d? n? ts? ext f now tU).2 = .error .expiredMessage) ∧
    (∀ (m : SiweMessage) (sig : String) (d? n? : Option String)
        (ts? : Option Int) (ext : Externals) (f now : String) (tU : Int)
        (expOpt : Option Int) (ns : String) (nb : Int),
        ¬(m.require_address = true ∧ m.address = none) →
        mismatches d? m.domain = false →
        mismatches n? (some (m.nonce.getD f)) = false →
        get_expiration_time ext m = .ok expOpt →
        atOrAfter (ts?.getD tU) expOpt = false →
        m.not_before = some ns → ext.isoparse ns = some nb →
        ts?.getD tU ≤ nb →
        (verify m sig d? n? ts? ext f now tU).2 = .error .notYetValidMessage) ∧
    (∀ (m : SiweMessage) (sig : String) (d? n? : Option String)
        (ts? : Option Int) (ext : Externals) (f now : String) (tU : Int)
        (expOpt nbOpt : Option Int),
        ¬(m.require_address = true ∧ m.address = none) →
        mismatches d? m.domain = false →
        mismatches n? (some (m.nonce.getD f)) = false →
        get_expiration_time ext m = .ok expOpt →
        atOrAfter (ts?.getD tU) expOpt = false →
        get_not_before ext m = .ok nbOpt →
        atOrBefore (ts?.getD tU) nbOpt = false →
        ext.recover (prepare_message m f now).2 sig = none →
        (verify m sig d? n? ts? ext f now tU).2 = .error .invalidSignature) ∧
    (∀ (m : SiweMessage) (sig : String) (d? n? : Option String)
        (ts? : Option Int) (ext : Externals) (f now : String) (tU : Int)
        (expOpt nbOpt : Option Int) (a ad : String),
        ¬(m.require_address = true ∧ m.address = none) →
        mismatches d? m.domain = false →
        mismatches n? (some (m.nonce.getD f)) = false →
        get_expiration_time ext m = .ok expOpt →
        atOrAfter (ts?.getD tU) expOpt = false →
        get_not_before ext m = .ok nbOpt →
        atOrBefore (ts?.getD tU) nbOpt = false →
        ext.recover (prepare_message m f now).2 sig = some a →
        m.address = some ad → ad ≠ "" → a ≠ ad →
        (verify m sig d? n? ts? ext f now tU).2 = .error .invalidSignature) ∧
    (∀ (m : SiweMessage) (sig : String) (d? n? : Option String)
        (ts? : Option Int) (ext : Externals) (f now : String) (tU : Int)
        (expOpt nbOpt : Option Int) (a : String),
        ¬(m.require_address = true ∧ m.address = none) →
        mismatches d? m.domain = false →
        mismatches n? (some (m.nonce.getD f)) = false →
        get_expiration_time ext m = .ok expOpt →
        atOrAfter (ts?.getD tU) expOpt = false →
        get_not_before ext m = .ok nbOpt →
        atOrBefore (ts?.getD tU) nbOpt = false →
        ext.recover (prepare_message m f now).2 sig = some a →
        checkAddressMatch m.address a = .ok a →
        (verify m sig d? n? ts? ext f now tU).2 = .ok a) := by
  refine ⟨?_, ?_, ?_, ?_, ?_, ?_, ?_, ?_⟩
  · intro m sig d? n? ts? ext f now tU h1 h2
    rw [verify_snd]
    exact verifyResult_malformed _ _ _ _ _ _ _ h1 h2
  · intro m sig d n? ts? ext f now tU hmal hd
    rw [verify_snd]
    exact verifyResult_domain _ _ _ _ _ _ _ hmal (by simp [mismatches, hd])
  · intro m sig d? n ts? ext f now tU hmal hd hn
    rw [verify_snd]
    exact verifyResult_nonce _ _ _ _ _ _ _ hmal hd (by simp [mismatches, hn])
  · intro m sig d? n? ts? ext f now tU es e hmal hd hn hes he hle
    rw [verify_snd]
    exact verifyResult_expired _ _ _ _ _ _ _ (some e) hmal hd hn
      (by simp [get_expiration_time, hes, he]) (by simp [atOrAfter, hle])
  · intro m sig d? n? ts? ext f now tU expOpt ns nb hmal hd hn hexp hAt hns hnb hle
    rw [verify_snd]
    exact verifyResult_notYetValid _ _ _ _ _ _ _ expOpt (some nb) hmal hd hn
      hexp hAt (by simp [get_not_before, hns, hnb]) (by simp [atOrBefore, hle])
  · intro m sig d? n? ts? ext f now tU expOpt nbOpt hmal hd hn hexp hAt hnb hBef hrec
    rw [verify_snd]
    refine (verifyResult_signature_stage ext sig d? n? (ts?.getD tU)
      { m with nonce := some (m.nonce.getD f), issued_at := some (m.issued_at.getD now) }
      (prepare_message m f now).2 expOpt nbOpt hmal hd hn hexp hAt hnb hBef).trans ?_
    simp [signatureStage, hrec]
  · intro m sig d? n? ts? ext f now tU expOpt nbOpt a ad hmal hd hn hexp hAt hnb hBef
      hrec had hne hane
    rw [verify_snd]
    refine (verifyResult_signature_stage ext sig d? n? (ts?.getD tU)
      { m with nonce := some (m.nonce.getD f), issued_at := some (m.issued_at.getD now) }
      (prepare_message m f now).2 expOpt nbOpt hmal hd hn hexp hAt hnb hBef).trans ?_
    simp [signatureStage, hrec, checkAddressMatch, had, hne, hane]
  · intro m sig d? n? ts? ext f now tU expOpt nbOpt a hmal hd hn hexp hAt hnb hBef
      hrec hmatch
    rw [verify_snd]
    refine (verifyResult_signature_stage ext sig d? n? (ts?.getD tU)
      { m with nonce := some (m.nonce.getD f), issued_at := some (m.issued_at.getD now) }
      (prepare_message m f now).2 expOpt nbOpt hmal hd hn hexp hAt hnb hBef).trans ?_
    simp [signatureStage, hrec, hmatch]

/-- Witness for C2: one concrete instantiation per stage of the ordered
check sequence. -/
def extOk : Externals :=
  { is_checksum_formatted_address := fun _ => true,
    rfc3987_uri := fun _ => true,
    isoparse := fun s => if s = "E" then some 10 else if s = "B" then some 20 else some 0,
    parseInt := fun _ => none,
    recover := fun _ _ => some "0xAb" }

def extRecoverFails : Externals := { extOk with recover := fun _ _ => none }

def extRecoverOther : Externals := { extOk with recover := fun _ _ => some "0xZz" }

def readyModel : SiweMessage :=
  { domain := some "service.org", address := some "0xAb", statement := none,
    uri := some "https://service.org/login", chain_id := some 1,
    version := some "1", nonce := some "32891757",
    issued_at := some "2021-09-30T16:25:24Z", expiration_time := none,
    not_before := none, request_id := none, resources := none,
    require_address := true }

theorem C2_verify_check_order_witness :
    (verify { readyModel with address := none } "sig" none none none extOk "F" "T" 0).2
        = .error (.malformedSession ["address"]) ∧
    (verify readyModel "sig" (some "other.org") none none extOk "F" "T" 0).2
        = .error .domainMismatch ∧
    (verify readyModel "sig" none (some "zzz") none extOk "F" "T" 0).2
        = .error .nonceMismatch ∧
    (verify { readyModel with expiration_time := some "E" } "sig" none none
        (some 10) extOk "F" "T" 0).2 = .error .expiredMessage ∧
    (verify { readyModel with not_before := some "B" } "sig" none none
        (some 15) extOk "F" "T" 0).2 = .error .notYetValidMessage ∧
    (verify readyModel "sig" none none (some 15) extRecoverFails "F" "T" 0).2
        = .error .invalidSignature ∧
    (verify readyModel "sig" none none (some 15) extRecoverOther "F" "T" 0).2
        = .error .invalidSignature ∧
    (verify readyModel "sig" none none (some 15) extOk "F" "T" 0).2 = .ok "0xAb" := by
  refine ⟨?_, ?_, ?_, ?_, ?_, ?_, ?_, ?_⟩
  · exact C2_verify_check_order.1 _ _ _ _ _ _ _ _ _ rfl rfl
  · exact C2_verify_check_order.2.1 _ _ _ _ _ _ _ _ _ (by decide) (by decide)
  · exact C2_verify_check_order.2.2.1 _ _ _ _ _ _ _ _ _ (by decide) rfl (by decide)
  · exact C2_verify_check_order.2.2.2.1 _ _ _ _ _ _ _ _ _ "E" 10 (by decide) rfl rfl
      rfl rfl (by decide)
  · exact C2_verify_check_order.2.2.2.2.1 _ _ _ _ _ _ _ _ _ none "B" 20 (by decide)
      rfl rfl rfl rfl rfl rfl (by decide)
  · exact C2_verify_check_order.2.2.2.2.2.1 _ _ _ _ _ _ _ _ _ none none (by decide)
      rfl rfl rfl rfl rfl rfl rfl
  · exact C2_verify_check_order.2.2.2.2.2.2.1 _ _ _ _ _ _ _ _ _ none none "0xZz" "0xAb"
      (by decide) rfl rfl rfl rfl rfl rfl rfl rfl (by decide) (by decide)
  · exact C2_verify_check_order.2.2.2.2.2.2.2 _ _ _ _ _ _ _ _ _ none none "0xAb"
      (by decide) rfl rfl rfl rfl rfl rfl rfl rfl

/-- The signature stage never reports a time-window error: its outcome is
either `invalidSignature` or the recovered address. -/
theorem signatureStage_outcome (ext : Externals) (text sig : String)
    (addrF : Option String) :
    signatureStage ext text sig addrF = .error .invalidSignature ∨
    ∃ a, signatureStage ext text sig addrF = .ok a := by
  unfold signatureStage
  cases ext.recover text sig with
  | none => exact Or.inl rfl
  | some a =>
      simp only [checkAddressMatch]
      cases addrF with
      | none => exact Or.inr ⟨a, rfl⟩
      | some ad =>
          by_cases h : ad ≠ "" ∧ a ≠ ad
          · simp [h]
          · simp [h]

/-- Externals whose clock parses `E` to instant 30 and `B` to 20, giving a
non-empty validity window. -/
def extWindow : Externals :=
  { extOk with isoparse := fun s =>
      if s = "E" then some 30 else if s = "B" then some 20 else some 0 }

/-- A model holding both an expiration time (parsing to instant 0 under
`extOk`) and a not-before time (parsing to 20). -/
def expNbModel : SiweMessage :=
  { readyModel with expiration_time := some "X", not_before := some "B" }

/-- C5 counterexample: the claim's second biconditional — verify fails with
"not yet valid" if and only if a not-before time is set and the instant is at
or before it — fails on a model that is simultaneously expired: at instant 15
the not-before time (instant 20) is set and not yet reached, yet `verify`
reports `expiredMessage` (the expiration check runs first), not
`notYetValidMessage`. -/
theorem C5_counterexample :
    (verify expNbModel "sig" none none (some 15) extOk "F" "T" 0).2
        = .error .expiredMessage ∧
    expNbModel.not_before = some "B" ∧
    extOk.isoparse "B" = some 20 ∧ ((15 : Int) ≤ 20) ∧
    VerificationError.expiredMessage ≠ VerificationError.notYetValidMessage :=
  ⟨rfl, rfl, rfl, by decide, by decide⟩

/-- C5 (amended): for every model and verification instant (supplied
timestamp or current UTC time), once the preceding checks pass (present
required address, no supplied domain/nonce expectation, parseable stored
dates): verify fails with "expired message" iff an expiration time is set
and the instant is at or after it; verify fails with "not yet valid" iff the
expiration check passes AND a not-before time is set and the instant is at
or before it; and with an instant strictly inside the window verification
proceeds past both checks to the signature stage. -/
theorem C5_time_window (m : SiweMessage) (sig : String) (ts? : Option Int)
    (ext : Externals) (f now : String) (tU : Int) (expOpt nbOpt : Option Int)
    (hmal : ¬(m.require_address = true ∧ m.address = none))
    (hexp : get_expiration_time ext m = .ok expOpt)
    (hnb : get_not_before ext m = .ok nbOpt) :
    ((verify m sig none none ts? ext f now tU).2 = .error .expiredMessage ↔
        atOrAfter (ts?.getD tU) expOpt = true) ∧
    ((verify m sig none none ts? ext f now tU).2 = .error .notYetValidMessage ↔
        (atOrAfter (ts?.getD tU) expOpt = false ∧
         atOrBefore (ts?.getD tU) nbOpt = true)) ∧
    (atOrAfter (ts?.getD tU) expOpt = false →
     atOrBefore (ts?.getD tU) nbOpt = false →
     (verify m sig none none ts? ext f now tU).2 =
       signatureStage ext (prepare_message m f now).2 sig m.address) := by
  by_cases hA : atOrAfter (ts?.getD tU) expOpt = true
  · have hres : (verify m sig none none ts? ext f now tU).2 = .error .expiredMessage := by
      rw [verify_snd]
      exact verifyResult_expired _ _ _ _ _ _ _ expOpt hmal rfl rfl hexp hA
    refine ⟨⟨fun _ => hA, fun _ => hres⟩, ⟨fun h => ?_, fun h => ?_⟩, fun h _ => ?_⟩
    · rw [hres] at h; exact absurd h (by simp)
    · rw [hA] at h; exact absurd h.1 (by simp)
    · rw [h] at hA; exact absurd hA (by simp)
  · have hA' : atOrAfter (ts?.getD tU) expOpt = false := by
      cases h : atOrAfter (ts?.getD tU) expOpt
      · rfl
      · exact absurd h hA
    by_cases hB : atOrBefore (ts?.getD tU) nbOpt = true
    · have hres : (verify m sig none none ts? ext f now tU).2
          = .error .notYetValidMessage := by
        rw [verify_snd]
        exact verifyResult_notYetValid _ _ _ _ _ _ _ expOpt nbOpt hmal rfl rfl hexp
          hA' hnb hB
      refine ⟨⟨fun h => ?_, fun h => ?_⟩, ⟨fun _ => ⟨hA', hB⟩, fun _ => hres⟩,
        fun _ h => ?_⟩
      · rw [hres] at h; exact absurd h (by simp)
      · rw [h] at hA; exact absurd rfl hA
      · rw [h] at hB; exact absurd hB (by simp)
    · have hB' : atOrBefore (ts?.getD tU) nbOpt = false := by
        cases h : atOrBefore (ts?.getD tU) nbOpt
        · rfl
        · exact absurd h hB
      have hres : (verify m sig none none ts? ext f now tU).2 =
          signatureStage ext (prepare_message m f now).2 sig m.address := by
        rw [verify_snd]
        exact verifyResult_signature_stage ext sig none none (ts?.getD tU)
          { m with nonce := some (m.nonce.getD f),
                   issued_at := some (m.issued_at.getD now) }
          (prepare_message m f now).2 expOpt nbOpt hmal rfl rfl hexp hA' hnb hB'
      have hout := signatureStage_outcome ext (prepare_message m f now).2 sig m.address
      refine ⟨⟨fun h => ?_, fun h => ?_⟩, ⟨fun h => ?_, fun h => ?_⟩, fun _ _ => hres⟩
      · rw [hres] at h
        rcases hout with ho | ⟨a, ho⟩
        · rw [ho] at h; exact absurd h (by simp)
        · rw [ho] at h; exact absurd h (by simp)
      · rw [h] at hA; exact absurd rfl hA
      · rw [hres] at h
        rcases hout with ho | ⟨a, ho⟩
        · rw [ho] at h; exact absurd h (by simp)
        · rw [ho] at h; exact absurd h (by simp)
      · rw [h.2] at hB; exact absurd hB (by simp)

def windowModel : SiweMessage :=
  { readyModel with expiration_time := some "E", not_before := some "B" }

/-- Witness for C5 (amended): expiration window [20, 30] under `extWindow`;
instant 35 is expired, instant 15 is not yet valid, instant 25 proceeds to
the signature stage and succeeds. -/
theorem C5_time_window_witness :
    (verify windowModel "sig" none none (some 35) extWindow "F" "T" 0).2
        = .error .expiredMessage ∧
    (verify windowModel "sig" none none (some 15) extWindow "F" "T" 0).2
        = .error .notYetValidMessage ∧
    (verify windowModel "sig" none none (some 25) extWindow "F" "T" 0).2
        = .ok "0xAb" := by
  refine ⟨?_, ?_, ?_⟩
  · exact (C5_time_window windowModel "sig" (some 35) extWindow "F" "T" 0 (some 30)
      (some 20) (by decide) rfl rfl).1.mpr (by decide)
  · exact (C5_time_window windowModel "sig" (some 15) extWindow "F" "T" 0 (some 30)
      (some 20) (by decide) rfl rfl).2.1.mpr ⟨by decide, by decide⟩
  · exact ((C5_time_window windowModel "sig" (some 25) extWindow "F" "T" 0 (some 30)
      (some 20) (by decide) rfl rfl).2.2 (by decide) (by decide)).trans rfl

/-- C6: once the earlier checks pass (and the stored address, when present,
is not the empty string — the only value whose Python truthiness would skip
the comparison, and one that can never pass EIP-55 validation at
construction), verify fails with "invalid signature" exactly when
cryptographic recovery fails or when the model carries an explicit address
and the recovered address differs from it; and the contract-wallet check
always reports the not-implemented error, never success or failure — the
conjunction shows the unimplemented EIP-1271 path is never taken by
`verify`, whose outcome at this stage is fully determined by recovery and
the address comparison. -/
theorem C6_invalid_signature_iff (m : SiweMessage) (sig : String) (ts? : Option Int)
    (ext : Externals) (f now : String) (tU : Int) (expOpt nbOpt : Option Int)
    (hmal : ¬(m.require_address = true ∧ m.address = none))
    (hexp : get_expiration_time ext m = .ok expOpt)
    (hAt : atOrAfter (ts?.getD tU) expOpt = false)
    (hnb : get_not_before ext m = .ok nbOpt)
    (hBef : atOrBefore (ts?.getD tU) nbOpt = false)
    (haddr : m.address ≠ some "") :
    ((verify m sig none none ts? ext f now tU).2 = .error .invalidSignature ↔
      (ext.recover (prepare_message m f now).2 sig = none ∨
       ∃ a ad, ext.recover (prepare_message m f now).2 sig = some a ∧
         m.address = some ad ∧ a ≠ ad)) ∧
    (∀ mm : SiweMessage, check_contract_wallet_signature mm =
        .error "siwe does not yet support EIP-1271 method signature verification.") := by
  have hres : (verify m sig none none ts? ext f now tU).2 =
      signatureStage ext (prepare_message m f now).2 sig m.address := by
    rw [verify_snd]
    exact verifyResult_signature_stage ext sig none none (ts?.getD tU)
      { m with nonce := some (m.nonce.getD f),
               issued_at := some (m.issued_at.getD now) }
      (prepare_message m f now).2 expOpt nbOpt hmal rfl rfl hexp hAt hnb hBef
  refine ⟨?_, fun mm => rfl⟩
  rw [hres]
  unfold signatureStage
  cases hro : ext.recover (prepare_message m f now).2 sig with
  | none => simp
  | some a =>
      cases haf : m.address with
      | none => simp [checkAddressMatch]
      | some ad =>
          have hadne : ad ≠ "" := fun he => haddr (by rw [haf, he])
          by_cases hane : a = ad
          · subst hane
            simp [checkAddressMatch]
          · simp [checkAddressMatch, hadne, hane]

/-- Witness for C6: recovery failure and address mismatch both yield
`invalidSignature`; the contract-wallet check reports not-implemented. -/
theorem C6_invalid_signature_witness :
    (verify readyModel "sig" none none (some 15) extRecoverFails "F" "T" 0).2
        = .error .invalidSignature ∧
    (verify readyModel "sig" none none (some 15) extRecoverOther "F" "T" 0).2
        = .error .invalidSignature ∧
    check_contract_wallet_signature readyModel =
      .error "siwe does not yet support EIP-1271 method signature verification." := by
  refine ⟨?_, ?_, ?_⟩
  · exact (C6_invalid_signature_iff readyModel "sig" (some 15) extRecoverFails "F" "T" 0
      none none (by decide) rfl rfl rfl rfl (by decide)).1.mpr (Or.inl rfl)
  · exact (C6_invalid_signature_iff readyModel "sig" (some 15) extRecoverOther "F" "T" 0
      none none (by decide) rfl rfl rfl rfl (by decide)).1.mpr
      (Or.inr ⟨"0xZz", "0xAb", rfl, rfl, by decide⟩)
  · exact (C6_invalid_signature_iff readyModel "sig" (some 15) extOk "F" "T" 0
      none none (by decide) rfl rfl rfl rfl (by decide)).2 readyModel

/-- C10: `verify` serializes before any check runs, so the one-time defaults
are assigned even when verification fails: the returned instance is exactly
the serialized one (only `nonce`/`issued_at` filled, no other slot changed);
an unset nonce/issued-at receives the freshly generated value; a verify call
failing with a domain mismatch still leaves the fresh nonce in place; and a
supplied expected nonce is compared against the freshly generated value. -/
theorem C10_verify_defaults_first (m : SiweMessage) (sig : String)
    (d? n? : Option String) (ts? : Option Int) (ext : Externals)
    (f now : String) (tU : Int) :
    ((verify m sig d? n? ts? ext f now tU).1 = (prepare_message m f now).1) ∧
    ((verify m sig d? n? ts? ext f now tU).1 =
      { m with nonce := some (m.nonce.getD f),
               issued_at := some (m.issued_at.getD now) }) ∧
    (m.nonce = none → (verify m sig d? n? ts? ext f now tU).1.nonce = some f) ∧
    (m.issued_at = none →
      (verify m sig d? n? ts? ext f now tU).1.issued_at = some now) ∧
    (∀ d : String, m.nonce = none →
      ¬(m.require_address = true ∧ m.address = none) →
      m.domain ≠ some d →
      (verify m sig (some d) n? ts? ext f now tU).2 = .error .domainMismatch ∧
      (verify m sig (some d) n? ts? ext f now tU).1.nonce = some f) ∧
    (∀ k : String, m.nonce = none →
      ¬(m.require_address = true ∧ m.address = none) →
      mismatches d? m.domain = false → k ≠ f →
      (verify m sig d? (some k) ts? ext f now tU).2 = .error .nonceMismatch) := by
  refine ⟨rfl, rfl, ?_, ?_, ?_, ?_⟩
  · intro h
    obtain ⟨dom, addr, stmt, uri, cid, ver, non, iss, exp, nb, rid, res, ra⟩ := m
    cases h; rfl
  · intro h
    obtain ⟨dom, addr, stmt, uri, cid, ver, non, iss, exp, nb, rid, res, ra⟩ := m
    cases h; rfl
  · intro d hnon hmal hd
    constructor
    · rw [verify_snd]
      exact verifyResult_domain _ _ _ _ _ _ _ hmal (by simp [mismatches, hd])
    · obtain ⟨dom, addr, stmt, uri, cid, ver, non, iss, exp, nb, rid, res, ra⟩ := m
      cases hnon; rfl
  · intro k hnon hmal hd hk
    rw [verify_snd]
    refine verifyResult_nonce _ _ _ _ _ _ _ hmal hd ?_
    have hgd : m.nonce.getD f = f := by rw [hnon]; rfl
    show mismatches (some k) (some (m.nonce.getD f)) = true
    rw [hgd]
    simp only [mismatches, ne_eq, Option.some.injEq, decide_eq_true_eq]
    exact Ne.symm hk

/-- Witness for C10: on a model with unset nonce and issued-at, a verify
call that fails with a domain mismatch still assigns both defaults, and an
expected nonce differing from the freshly generated one yields nonce
mismatch. -/
theorem C10_verify_defaults_first_witness :
    (verify unsetDefaultsModel "sig" (some "other.org") none none extOk "F" "T" 0).1.nonce
        = some "F" ∧
    (verify unsetDefaultsModel "sig" (some "other.org") none none extOk "F" "T" 0).2
        = .error .domainMismatch ∧
    (verify unsetDefaultsModel "sig" (some "other.org") none none extOk "F" "T" 0).1.issued_at
        = some "T" ∧
    (verify unsetDefaultsModel "sig" none (some "zzz") none extOk "F" "T" 0).2
        = .error .nonceMismatch := by
  refine ⟨?_, ?_, ?_, ?_⟩
  · exact ((C10_verify_defaults_first unsetDefaultsModel "sig" (some "other.org") none
      none extOk "F" "T" 0).2.2.2.2.1 "other.org" rfl (by decide) (by decide)).2
  · exact ((C10_verify_defaults_first unsetDefaultsModel "sig" (some "other.org") none
      none extOk "F" "T" 0).2.2.2.2.1 "other.org" rfl (by decide) (by decide)).1
  · exact (C10_verify_defaults_first unsetDefaultsModel "sig" (some "other.org") none
      none extOk "F" "T" 0).2.2.2.1 rfl
  · exact (C10_verify_defaults_first unsetDefaultsModel "sig" none none
      none extOk "F" "T" 0).2.2.2.2.2 "zzz" rfl (by decide) rfl (by decide)


/-- Externals on which every injected validator rejects and every parse
fails: anything `siweInit` accepts under these is accepted without any
external validation being consulted. -/
def extReject : Externals :=
  { is_checksum_formatted_address := fun _ => false,
    rfc3987_uri := fun _ => false,
    isoparse := fun _ => none,
    parseInt := fun _ => none,
    recover := fun _ _ => none }

/-- A construction input whose statement contains a line break and whose
nonce has fewer than 8 characters. -/
def unvalidatedInput : MessageDict :=
  { domain := some "example.com", statement := some "line1\nline2",
    nonce := some "ab" }

/-- C3 counterexample: the claim says a statement containing a line break or
a nonce of fewer than 8 alphanumeric characters makes construction fail; but
`__init__` has no validation branch for `statement` or `nonce`, so this
input constructs a model successfully — even with every external validator
rejecting. -/
theorem C3_counterexample :
    unvalidatedInput.statement = some "line1\nline2" ∧
    '\n' ∈ ("line1\nline2" : String).data ∧
    unvalidatedInput.nonce = some "ab" ∧
    ("ab" : String).length < 8 ∧
    siweInit extReject unvalidatedInput true =
      .ok { domain := some "example.com", address := none,
            statement := some "line1\nline2", uri := none, chain_id := none,
            version := none, nonce := some "ab", issued_at := none,
            expiration_time := none, not_before := none, request_id := none,
            resources := none, require_address := true } :=
  ⟨rfl, by decide, rfl, by decide, rfl⟩

/-- C3 (amended): of the three rules the claim lists, only the address rule
is enforced: a present address failing EIP-55 validation aborts construction
with the field-identifying error (given the earlier domain check passes);
`statement` and `nonce` are not validated at construction — changing them to
any values, however malformed, changes only those fields of the outcome. -/
theorem C3_field_validation (ext : Externals) (msg : MessageDict) (r : Bool) :
    (∀ a : String, msg.domain ≠ some "" → msg.address = some a →
        ext.is_checksum_formatted_address a = false →
        siweInit ext msg r =
          .error (.valueError "Message `address` must be in EIP-55 format")) ∧
    (∀ (s n : Option String),
        siweInit ext { msg with statement := s, nonce := n } r =
          (siweInit ext msg r).map
            (fun m => { m with statement := s, nonce := n })) := by
  constructor
  · intro a hdom haddr hchk
    simp [siweInit, checkDomain, checkAddress, hdom, haddr, hchk, Bind.bind,
      Except.bind]
  · intro s n
    obtain ⟨md, ma, ms, mu, mc, mv, mn, mi, me, mb, mr, mres⟩ := msg
    simp only [siweInit]
    cases checkDomain md <;> cases checkAddress ext ma <;> cases checkUri ext mu <;>
      cases coerceChainId ext mc <;> cases checkIso ext "issued_at" mi <;>
      cases checkIso ext "expiration_time" me <;> cases checkIso ext "not_before" mb <;>
      cases checkResources ext mres <;>
      simp [Bind.bind, Except.bind, Functor.map, Except.map, pure, Except.pure]

/-- Witness for C3 (amended): a rejected address fails construction; the
line-break statement and short nonce of `unvalidatedInput` pass through. -/
theorem C3_field_validation_witness :
    siweInit extReject { domain := some "example.com", address := some "0xBAD" } true
        = .error (.valueError "Message `address` must be in EIP-55 format") ∧
    siweInit extReject
        { unvalidatedInput with statement := some "x\ny", nonce := some "q" } true
        = (siweInit extReject unvalidatedInput true).map
            (fun m => { m with statement := some "x\ny", nonce := some "q" }) :=
  ⟨(C3_field_validation extReject
      { domain := some "example.com", address := some "0xBAD" } true).1
      "0xBAD" (by decide) rfl rfl,
   (C3_field_validation extReject unvalidatedInput true).2 (some "x\ny") (some "q")⟩

/-- A construction input with no `uri` key at all. -/
def noUriInput : MessageDict := { domain := some "example.com" }

/-- C4 counterexample: the claim says an absent uri makes construction fail;
but `__init__` validates `uri` only when it is present (`value is not
None`), so an input without `uri` constructs a model (with `uri` stored as
`None`) — even with every external validator rejecting. -/
theorem C4_counterexample :
    noUriInput.uri = none ∧
    siweInit extReject noUriInput true =
      .ok { domain := some "example.com", address := none, statement := none,
            uri := none, chain_id := none, version := none, nonce := none,
            issued_at := none, expiration_time := none, not_before := none,
            request_id := none, resources := none, require_address := true } :=
  ⟨rfl, rfl⟩

/-- C4 (amended): an empty-string domain aborts construction with the domain
error unconditionally (it is the first check); a PRESENT uri failing URI
syntax aborts construction with the uri error (once the earlier checks
pass); an ABSENT uri is not validated — when every other check passes,
construction succeeds and stores `uri := none`. -/
theorem C4_domain_uri_validation (ext : Externals) (msg : MessageDict) (r : Bool) :
    (msg.domain = some "" →
        siweInit ext msg r =
          .error (.valueError "Message `domain` must not be empty")) ∧
    (∀ u : String, msg.domain ≠ some "" →
        checkAddress ext msg.address = .ok () →
        msg.uri = some u → ext.rfc3987_uri u = false →
        siweInit ext msg r =
          .error (.valueError "Invalid format for field `uri`")) ∧
    (∀ cid : Option Int, msg.uri = none →
        checkDomain msg.domain = .ok () →
        checkAddress ext msg.address = .ok () →
        coerceChainId ext msg.chain_id = .ok cid →
        checkIso ext "issued_at" msg.issued_at = .ok () →
        checkIso ext "expiration_time" msg.expiration_time = .ok () →
        checkIso ext "not_before" msg.not_before = .ok () →
        checkResources ext msg.resources = .ok () →
        siweInit ext msg r =
          .ok { domain := msg.domain, address := msg.address,
                statement := msg.statement, uri := none, chain_id := cid,
                version := msg.version, nonce := msg.nonce,
                issued_at := msg.issued_at,
                expiration_time := msg.expiration_time,
                not_before := msg.not_before, request_id := msg.request_id,
                resources := msg.resources, require_address := r }) := by
  refine ⟨?_, ?_, ?_⟩
  · intro h
    simp [siweInit, checkDomain, h, Bind.bind, Except.bind]
  · intro u hdom haddr huri hrfc
    simp [siweInit, checkDomain, hdom, haddr, checkUri, huri, hrfc, Bind.bind,
      Except.bind]
  · intro cid huri hdom haddr hcid hiso1 hiso2 hiso3 hres
    simp [siweInit, huri, hdom, haddr, hcid, hiso1, hiso2, hiso3, hres, checkUri,
      Bind.bind, Except.bind, pure, Except.pure]

/-- Witness for C4 (amended) at concrete inputs for the three conjuncts. -/
theorem C4_domain_uri_validation_witness :
    siweInit extReject { domain := some "" } true =
      .error (.valueError "Message `domain` must not be empty") ∧
    siweInit extReject { domain := some "example.com", uri := some "bad" } true =
      .error (.valueError "Invalid format for field `uri`") ∧
    siweInit extReject noUriInput true =
      .ok { domain := some "example.com", address := none, statement := none,
            uri := none, chain_id := none, version := none, nonce := none,
            issued_at := none, expiration_time := none, not_before := none,
            request_id := none, resources := none, require_address := true } :=
  ⟨(C4_domain_uri_validation extReject { domain := some "" } true).1 rfl,
   (C4_domain_uri_validation extReject
      { domain := some "example.com", uri := some "bad" } true).2.1
      "bad" (by decide) rfl rfl rfl,
   (C4_domain_uri_validation extReject noUriInput true).2.2
      none rfl rfl rfl rfl rfl rfl rfl rfl⟩

end Siwe
